import Mathlib

/-!
Verification of the client-side state-cache and view-continuity logic of a
mobile chat client, against its design specification.  Sections:

1. View-continuity heuristic (`getMessageUpdateStrategy`)
2. Snapshot fetcher (`registerForEvents`)
3. Flags subtree (`FlagsState`) and the flags-free `Message` record
4. Sharing module (`handleInitialShare`, `ShareReceivedListener`)
-/

namespace ZulipMobile

/-! ## 1. View-continuity heuristic -/

/-- A narrow serializes to a stable string key; only its identity (equality)
matters to the heuristic, so we represent it by that key. -/
abbrev Narrow := String

abbrev MessageId := Nat

/-- The props handed to the heuristic: the view's message list (represented by
its IDs, the only message data the heuristic consults) and its narrow. -/
structure MessageListProps where
  messages : List MessageId
  narrow : Narrow
  deriving DecidableEq, Repr

inductive UpdateStrategy where
  | replace
  | preservePosition
  | scrollToAnchor
  | scrollToBottomIfNearBottom
  deriving DecidableEq, Repr

/-- The previous and next lists share no message IDs at all. -/
def sharesNoIds (prev next : List MessageId) : Bool :=
  prev.all fun i => !(next.contains i)

/-- The next list extends the previous list by exactly one additional message
at the end: all previous IDs present in the same order, plus one new
trailing ID. -/
def extendsByOneNewTrailing (prev next : List MessageId) : Bool :=
  match next.getLast? with
  | none => false
  | some x => next.dropLast == prev && !(prev.contains x)

/-- Modelled from the spec: the view-continuity heuristic
`getMessageUpdateStrategy`; its implementing module is not under src/, only
its test file is.  The decision rules follow the spec's decision algorithm,
with the both-lists-empty check placed before the narrow-identity check: the
repository's own test (empty previous and next lists under different narrows
expecting `replace`) and the spec's testable property "empty→empty ⇒ replace",
stated for any narrows, fix that order. -/
def getMessageUpdateStrategy (prevProps nextProps : MessageListProps) : UpdateStrategy :=
  if prevProps.messages.isEmpty && nextProps.messages.isEmpty then
    .replace
  else if prevProps.narrow != nextProps.narrow then
    .scrollToAnchor
  else if prevProps.messages.isEmpty then
    .scrollToAnchor
  else if sharesNoIds prevProps.messages nextProps.messages then
    .scrollToAnchor
  else if extendsByOneNewTrailing prevProps.messages nextProps.messages then
    .scrollToBottomIfNearBottom
  else
    .preservePosition

/-- The eight cases of the repository's test file for the heuristic, each with
the expected strategy. -/
theorem getMessageUpdateStrategy_matches_tests :
    getMessageUpdateStrategy ⟨[], "s"⟩ ⟨[1, 2, 3], "s"⟩ = .scrollToAnchor ∧
    getMessageUpdateStrategy ⟨[1, 2, 3], "s"⟩ ⟨[2, 3, 5, 6], "t"⟩ = .scrollToAnchor ∧
    getMessageUpdateStrategy ⟨[], "s"⟩ ⟨[], "t"⟩ = .replace ∧
    getMessageUpdateStrategy ⟨[1, 2, 3], "s"⟩ ⟨[5, 6, 7], "s"⟩ = .scrollToAnchor ∧
    getMessageUpdateStrategy ⟨[2, 3, 4], "s"⟩ ⟨[0, 1, 3, 4], "s"⟩ = .preservePosition ∧
    getMessageUpdateStrategy ⟨[4, 5, 6], "s"⟩ ⟨[1, 2, 3, 4, 5, 6], "s"⟩ = .preservePosition ∧
    getMessageUpdateStrategy ⟨[4, 5, 6], "s"⟩ ⟨[4, 5, 6, 7, 8, 9], "s"⟩ = .preservePosition ∧
    getMessageUpdateStrategy ⟨[4, 5, 6], "s"⟩ ⟨[4, 5, 6, 7], "s"⟩ = .scrollToBottomIfNearBottom := by
  decide

/-- C1: the claim as stated is false.  With both message lists empty and
differing narrows the function returns `replace`, not `scroll-to-anchor` —
exactly the case of the repository's test "when no messages just replace
content", which uses two distinct narrows. -/
theorem C1_counterexample :
    (MessageListProps.mk [] "stream:denmark").narrow ≠ (MessageListProps.mk [] "stream:rome").narrow ∧
    getMessageUpdateStrategy ⟨[], "stream:denmark"⟩ ⟨[], "stream:rome"⟩ = .replace ∧
    UpdateStrategy.replace ≠ .scrollToAnchor := by
  decide

/-- C1 (amended): for every pair of props whose narrow identities differ and
whose message lists are not both empty, `getMessageUpdateStrategy` returns
`scroll-to-anchor` regardless of the contents of the two message lists; the
both-empty check is the one check evaluated before the narrow check. -/
theorem C1_narrow_change_scroll_to_anchor (p q : MessageListProps)
    (hn : p.narrow ≠ q.narrow) (hne : ¬(p.messages = [] ∧ q.messages = [])) :
    getMessageUpdateStrategy p q = .scrollToAnchor := by
  have h1 : (p.messages.isEmpty && q.messages.isEmpty) = false := by
    cases hp : p.messages with
    | nil =>
      cases hq : q.messages with
      | nil => exact absurd ⟨hp, hq⟩ hne
      | cons a l => simp [hq]
    | cons a l => simp [hp]
  have h2 : (p.narrow != q.narrow) = true := bne_iff_ne.mpr hn
  simp [getMessageUpdateStrategy, h1, h2]

theorem C1_witness :
    (MessageListProps.mk [1] "a").narrow ≠ (MessageListProps.mk [] "b").narrow ∧
    getMessageUpdateStrategy ⟨[1], "a"⟩ ⟨[], "b"⟩ = .scrollToAnchor :=
  ⟨by decide, C1_narrow_change_scroll_to_anchor ⟨[1], "a"⟩ ⟨[], "b"⟩ (by decide) (by decide)⟩

/-- C2: for every pair of props in which both message lists are empty,
`getMessageUpdateStrategy` returns `replace`, whether the narrow is the same
or different. -/
theorem C2_both_empty_replace (p q : MessageListProps)
    (hp : p.messages = []) (hq : q.messages = []) :
    getMessageUpdateStrategy p q = .replace := by
  simp [getMessageUpdateStrategy, hp, hq]

theorem C2_witness :
    getMessageUpdateStrategy ⟨[], "a"⟩ ⟨[], "b"⟩ = .replace :=
  C2_both_empty_replace ⟨[], "a"⟩ ⟨[], "b"⟩ rfl rfl

theorem isEmpty_eq_false_of_ne_nil {α : Type} {l : List α} (h : l ≠ []) :
    l.isEmpty = false := by
  cases l with
  | nil => exact absurd rfl h
  | cons a t => rfl

theorem extendsByOne_eq_false_of_not_append (prev next : List MessageId)
    (h : ∀ x, next ≠ prev ++ [x]) :
    extendsByOneNewTrailing prev next = false := by
  induction next using List.reverseRecOn with
  | nil => rfl
  | append_singleton ys y ih =>
    have hys : ys ≠ prev := by
      intro he
      exact h y (by rw [he])
    simp [extendsByOneNewTrailing, List.getLast?_concat, List.dropLast_concat, hys]

/-- C3: for every pair of props with the same narrow where the next message
list is exactly the previous non-empty list plus one new trailing ID,
`getMessageUpdateStrategy` returns `scroll-to-bottom-if-near-bottom`. -/
theorem C3_single_trailing_message (p q : MessageListProps) (x : MessageId)
    (hnarrow : p.narrow = q.narrow) (hne : p.messages ≠ [])
    (hext : q.messages = p.messages ++ [x]) (hnew : x ∉ p.messages) :
    getMessageUpdateStrategy p q = .scrollToBottomIfNearBottom := by
  obtain ⟨a, as, hcons⟩ := List.exists_cons_of_ne_nil hne
  have hpe : p.messages.isEmpty = false := isEmpty_eq_false_of_ne_nil hne
  have hqe : q.messages.isEmpty = false := by
    rw [hext, hcons]
    rfl
  have hshare : sharesNoIds p.messages q.messages = false := by
    rw [sharesNoIds, hext, hcons]
    simp
  have hext1 : extendsByOneNewTrailing p.messages q.messages = true := by
    rw [extendsByOneNewTrailing, hext]
    simp [List.getLast?_concat, List.dropLast_concat, hnew]
  simp [getMessageUpdateStrategy, hpe, hqe, hnarrow, hshare, hext1]

theorem C3_witness :
    getMessageUpdateStrategy ⟨[4, 5, 6], "s"⟩ ⟨[4, 5, 6, 7], "s"⟩ = .scrollToBottomIfNearBottom :=
  C3_single_trailing_message ⟨[4, 5, 6], "s"⟩ ⟨[4, 5, 6, 7], "s"⟩ 7
    rfl (by decide) rfl (by decide)

/-- C4: for every pair of props with the same narrow where the previous list
is non-empty, the two lists share at least one ID, and the next list is not
the previous list plus exactly one trailing ID, `getMessageUpdateStrategy`
returns `preserve-position`. -/
theorem C4_overlap_preserve_position (p q : MessageListProps)
    (hnarrow : p.narrow = q.narrow) (hne : p.messages ≠ [])
    (hshare : ∃ i, i ∈ p.messages ∧ i ∈ q.messages)
    (hnotext : ∀ x, q.messages ≠ p.messages ++ [x]) :
    getMessageUpdateStrategy p q = .preservePosition := by
  obtain ⟨i, hip, hiq⟩ := hshare
  have hpe : p.messages.isEmpty = false := isEmpty_eq_false_of_ne_nil hne
  have hqe : q.messages.isEmpty = false :=
    isEmpty_eq_false_of_ne_nil (List.ne_nil_of_mem hiq)
  have hshareF : sharesNoIds p.messages q.messages = false := by
    rw [sharesNoIds, List.all_eq_false]
    exact ⟨i, hip, by simp [hiq]⟩
  have hextF : extendsByOneNewTrailing p.messages q.messages = false :=
    extendsByOne_eq_false_of_not_append p.messages q.messages hnotext
  simp [getMessageUpdateStrategy, hpe, hqe, hnarrow, hshareF, hextF]

theorem C4_witness :
    getMessageUpdateStrategy ⟨[2, 3, 4], "s"⟩ ⟨[0, 1, 3, 4], "s"⟩ = .preservePosition :=
  C4_overlap_preserve_position ⟨[2, 3, 4], "s"⟩ ⟨[0, 1, 3, 4], "s"⟩
    rfl (by decide) ⟨3, by decide, by decide⟩ (by intro x h; simp at h)

/-- C5: for every pair of props with the same narrow where both message lists
are non-empty and share no message ID at all, `getMessageUpdateStrategy`
returns `scroll-to-anchor`. -/
theorem C5_disjoint_scroll_to_anchor (p q : MessageListProps)
    (hnarrow : p.narrow = q.narrow) (hp : p.messages ≠ []) (hq : q.messages ≠ [])
    (hdisj : ∀ i, i ∈ p.messages → i ∉ q.messages) :
    getMessageUpdateStrategy p q = .scrollToAnchor := by
  have hpe : p.messages.isEmpty = false := isEmpty_eq_false_of_ne_nil hp
  have hqe : q.messages.isEmpty = false := isEmpty_eq_false_of_ne_nil hq
  have hshareT : sharesNoIds p.messages q.messages = true := by
    rw [sharesNoIds, List.all_eq_true]
    intro i hi
    simp [hdisj i hi]
  simp [getMessageUpdateStrategy, hpe, hqe, hnarrow, hshareT]

theorem C5_witness :
    getMessageUpdateStrategy ⟨[1, 2, 3], "s"⟩ ⟨[5, 6, 7], "s"⟩ = .scrollToAnchor :=
  C5_disjoint_scroll_to_anchor ⟨[1, 2, 3], "s"⟩ ⟨[5, 6, 7], "s"⟩
    rfl (by decide) (by decide) (by decide)

/-- C6: for every pair of props where the previous message list is empty and
the next is non-empty, `getMessageUpdateStrategy` returns `scroll-to-anchor`,
whether the narrow is the same or different. -/
theorem C6_initial_population_scroll_to_anchor (p q : MessageListProps)
    (hp : p.messages = []) (hq : q.messages ≠ []) :
    getMessageUpdateStrategy p q = .scrollToAnchor := by
  have hqe : q.messages.isEmpty = false := isEmpty_eq_false_of_ne_nil hq
  by_cases hn : p.narrow = q.narrow
  · simp [getMessageUpdateStrategy, hp, hqe, hn]
  · simp [getMessageUpdateStrategy, hp, hqe, bne_iff_ne.mpr hn]

theorem C6_witness :
    getMessageUpdateStrategy ⟨[], "s"⟩ ⟨[1, 2, 3], "s"⟩ = .scrollToAnchor :=
  C6_initial_population_scroll_to_anchor ⟨[], "s"⟩ ⟨[1, 2, 3], "s"⟩ rfl (by decide)

/-! ## 2. Snapshot fetcher: `registerForEvents` -/

/-- Identity and credentials for one logged-in server; `registerForEvents`
only reads `realm` (passed to the transform functions). -/
structure Auth where
  realm : String
  email : String
  apiKey : String
  deriving DecidableEq, Repr

structure ClientCapabilities where
  notification_settings_null : Bool
  bulk_message_deletion : Bool
  deriving DecidableEq, Repr

/-- The parameter record of `registerForEvents`; every field is optional.
The narrow filter type is kept abstract, as in the source it is an imported
opaque type. -/
structure RegisterForEventsParams (NarrowFilter : Type) where
  apply_markdown : Option Bool
  client_gravatar : Option Bool
  all_public_streams : Option Bool
  event_types : Option (List String)
  fetch_event_types : Option (List String)
  include_subscribers : Option Bool
  narrow : Option NarrowFilter
  queue_lifespan_secs : Option Nat
  client_capabilities : Option ClientCapabilities

/-- The parameters actually sent on the wire: the spread of the input record
with the four structured fields overridden by their serialized string forms.
A field absent from the input stays absent (serializing an absent value
yields no value, mirroring stringification of an undefined field). -/
structure RegisterWireParams where
  apply_markdown : Option Bool
  client_gravatar : Option Bool
  all_public_streams : Option Bool
  include_subscribers : Option Bool
  queue_lifespan_secs : Option Nat
  narrow : Option String
  event_types : Option String
  fetch_event_types : Option String
  client_capabilities : Option String

/-- The raw `/register` response: the three user/bot lists that get
transformed, and `rest` standing for every other snapshot field, which is
spread through unchanged. -/
structure RawInitialData (User Bot Rest : Type) where
  realm_users : List User
  realm_non_active_users : List User
  cross_realm_bots : List Bot
  rest : Rest

/-- Currently the identity on the raw user (the avatar-URL conversion is a
planned later change, per the source comment). -/
def transformUser {User : Type} (rawUser : User) (realm : String) : User :=
  rawUser

/-- Currently the identity on the raw cross-realm bot. -/
def transformCrossRealmBot {Bot : Type} (rawCrossRealmBot : Bot) (realm : String) : Bot :=
  rawCrossRealmBot

def transform {User Bot Rest : Type} (rawInitialData : RawInitialData User Bot Rest)
    (auth : Auth) : RawInitialData User Bot Rest :=
  { rawInitialData with
    realm_users := rawInitialData.realm_users.map fun rawUser => transformUser rawUser auth.realm
    realm_non_active_users :=
      rawInitialData.realm_non_active_users.map fun rawNonActiveUser =>
        transformUser rawNonActiveUser auth.realm
    cross_realm_bots :=
      rawInitialData.cross_realm_bots.map fun rawCrossRealmBot =>
        transformCrossRealmBot rawCrossRealmBot auth.realm }

/-- One POST request: the auth it was made with, the route, and the wire
parameters. -/
structure RegisterRequest where
  auth : Auth
  route : String
  params : RegisterWireParams

/-- The wire parameters built by `registerForEvents`: the spread of `params`
with `narrow`, `event_types`, `fetch_event_types` and `client_capabilities`
replaced by their string serializations.  The serializers for the three
structured types are passed in, standing for the JSON stringifier. -/
def registerWireParams {NarrowFilter : Type} (stringifyNarrow : NarrowFilter → String)
    (stringifyStrings : List String → String)
    (stringifyCaps : ClientCapabilities → String)
    (params : RegisterForEventsParams NarrowFilter) : RegisterWireParams :=
  { apply_markdown := params.apply_markdown
    client_gravatar := params.client_gravatar
    all_public_streams := params.all_public_streams
    include_subscribers := params.include_subscribers
    queue_lifespan_secs := params.queue_lifespan_secs
    narrow := params.narrow.map stringifyNarrow
    event_types := params.event_types.map stringifyStrings
    fetch_event_types := params.fetch_event_types.map stringifyStrings
    client_capabilities := params.client_capabilities.map stringifyCaps }

/-- `registerForEvents`: POSTs once to the `register` route and transforms the
response.  The external POST primitive is passed in as `apiPost`; the result
pairs the list of requests issued with the returned initial data, so that the
request trace is part of the observable behaviour. -/
def registerForEvents {NarrowFilter User Bot Rest : Type}
    (stringifyNarrow : NarrowFilter → String)
    (stringifyStrings : List String → String)
    (stringifyCaps : ClientCapabilities → String)
    (apiPost : RegisterRequest → RawInitialData User Bot Rest)
    (auth : Auth) (params : RegisterForEventsParams NarrowFilter) :
    List RegisterRequest × RawInitialData User Bot Rest :=
  let request : RegisterRequest :=
    { auth := auth
      route := "register"
      params := registerWireParams stringifyNarrow stringifyStrings stringifyCaps params }
  let rawInitialData := apiPost request
  ([request], transform rawInitialData auth)

/-- C7: `registerForEvents` performs exactly one POST, to the `register`
route; the boolean flags and queue lifespan pass through to the wire
unchanged while narrow, event types, fetch event types and client
capabilities are serialized to strings; and the result is the response with
`transformUser` mapped over `realm_users` and `realm_non_active_users`,
`transformCrossRealmBot` mapped over `cross_realm_bots`, and every other
field as received. -/
theorem C7_registerForEvents_contract {NarrowFilter User Bot Rest : Type}
    (sN : NarrowFilter → String) (sL : List String → String)
    (sC : ClientCapabilities → String)
    (apiPost : RegisterRequest → RawInitialData User Bot Rest)
    (auth : Auth) (params : RegisterForEventsParams NarrowFilter) :
    let wire := registerWireParams sN sL sC params
    let out := registerForEvents sN sL sC apiPost auth params
    let raw := apiPost ⟨auth, "register", wire⟩
    out.1 = [⟨auth, "register", wire⟩] ∧
    wire.apply_markdown = params.apply_markdown ∧
    wire.client_gravatar = params.client_gravatar ∧
    wire.all_public_streams = params.all_public_streams ∧
    wire.include_subscribers = params.include_subscribers ∧
    wire.queue_lifespan_secs = params.queue_lifespan_secs ∧
    wire.narrow = params.narrow.map sN ∧
    wire.event_types = params.event_types.map sL ∧
    wire.fetch_event_types = params.fetch_event_types.map sL ∧
    wire.client_capabilities = params.client_capabilities.map sC ∧
    out.2.realm_users = raw.realm_users.map (fun u => transformUser u auth.realm) ∧
    out.2.realm_non_active_users =
      raw.realm_non_active_users.map (fun u => transformUser u auth.realm) ∧
    out.2.cross_realm_bots =
      raw.cross_realm_bots.map (fun b => transformCrossRealmBot b auth.realm) ∧
    out.2.rest = raw.rest :=
  ⟨rfl, rfl, rfl, rfl, rfl, rfl, rfl, rfl, rfl, rfl, rfl, rfl, rfl, rfl⟩

/-! ## 3. Flags subtree and the flags-free Message record -/

/-- The value type of every per-flag map entry: the literal type `true` of
the source's type annotation.  Its only inhabitant is the boolean `true`. -/
abbrev FlowTrue := { b : Bool // b = true }

/-- One per-flag map: message IDs paired with the (always-`true`) flag
value. -/
abbrev FlagMap := List (Nat × FlowTrue)

/-- The flags subtree: one map per flag kind, transcribed field by field. -/
structure FlagsState where
  read : FlagMap
  starred : FlagMap
  collapsed : FlagMap
  mentioned : FlagMap
  wildcard_mentioned : FlagMap
  summarize_in_home : FlagMap
  summarize_in_stream : FlagMap
  force_expand : FlagMap
  force_collapse : FlagMap
  has_alert_word : FlagMap
  historical : FlagMap
  is_me_message : FlagMap

/-- The keys of `FlagsState`. -/
inductive FlagName where
  | read | starred | collapsed | mentioned | wildcard_mentioned
  | summarize_in_home | summarize_in_stream | force_expand | force_collapse
  | has_alert_word | historical | is_me_message
  deriving DecidableEq, Repr

def FlagsState.mapOf (fs : FlagsState) : FlagName → FlagMap
  | .read => fs.read
  | .starred => fs.starred
  | .collapsed => fs.collapsed
  | .mentioned => fs.mentioned
  | .wildcard_mentioned => fs.wildcard_mentioned
  | .summarize_in_home => fs.summarize_in_home
  | .summarize_in_stream => fs.summarize_in_stream
  | .force_expand => fs.force_expand
  | .force_collapse => fs.force_collapse
  | .has_alert_word => fs.has_alert_word
  | .historical => fs.historical
  | .is_me_message => fs.is_me_message

/-- A flag holds on a message exactly when the message's ID is a key of the
corresponding map. -/
def flagHolds (m : FlagMap) (messageId : Nat) : Bool :=
  m.any fun entry => entry.1 == messageId

/-- Modelled from the spec: the `Message` record — "immutable-once-fetched
record (id, sender, content, timestamp, recipient info)"; its defining module
is not under src/.  Per the state-type module's documentation, these objects
lack the flags property, which is held in `FlagsState` instead, so the record
carries exactly the five content fields and no flags field. -/
structure Message where
  id : Nat
  sender : String
  content : String
  timestamp : Nat
  recipient : String
  deriving DecidableEq, Repr

/-- The map with all locally stored messages, indexed by ID. -/
abbrev MessagesState := List (Nat × Message)

/-- C8: every entry of every per-flag map carries the value `true`, so a flag
holds on a message exactly when the message's ID is a key mapped to `true`
(absence means the flag is not set); and a `Message` is exhausted by its five
content fields — it carries no flags field. -/
theorem C8_flags_sparse_and_messages_flagless (fs : FlagsState) (name : FlagName)
    (m : FlagMap) (messageId : Nat) (msg : Message) :
    ((fs.mapOf name).all fun entry => entry.2.val) = true ∧
    flagHolds m messageId = (m.any fun entry => entry.1 == messageId && entry.2.val) ∧
    msg = ⟨msg.id, msg.sender, msg.content, msg.timestamp, msg.recipient⟩ := by
  refine ⟨?_, ?_, rfl⟩
  · rw [List.all_eq_true]
    intro entry hmem
    exact entry.2.property
  · rw [flagHolds]
    congr 1
    funext entry
    rw [entry.2.property, Bool.and_true]

/-! ## 4. Sharing module -/

/-- The fallback sharing module used when no native module is installed (the
iOS case): its read of the initial shared content always yields nothing. -/
def fallbackReadInitialSharedContent (SharedData : Type) : Option SharedData :=
  none

/-- A navigation dispatch observable from the sharing module; the navigation
action constructor is opaque to this module. -/
inductive NavAction (SharedData : Type) where
  | navigateToSharing (data : SharedData)
  deriving DecidableEq, Repr

/-- The `goToSharing` thunk: when run by the store it dispatches exactly one
navigation to the sharing screen carrying the shared data. -/
def goToSharing {SharedData : Type} (data : SharedData) : List (NavAction SharedData) :=
  [NavAction.navigateToSharing data]

/-- `handleInitialShare`, with the resolved value of the sharing module's
`readInitialSharedContent` passed in; the result is the list of navigation
dispatches it performs. -/
def handleInitialShare {SharedData : Type} (initialSharedData : Option SharedData) :
    List (NavAction SharedData) :=
  match initialSharedData with
  | none => []
  | some data => goToSharing data

/-- C9: when the shared-content read resolves to nothing — as the iOS
fallback module always does — `handleInitialShare` dispatches no action; when
it resolves to shared data, exactly one `navigateToSharing` navigation
carrying that data is dispatched. -/
theorem C9_handleInitialShare_dispatches (SharedData : Type) (data : SharedData) :
    handleInitialShare (none : Option SharedData) = [] ∧
    handleInitialShare (some data) = [NavAction.navigateToSharing data] ∧
    handleInitialShare (fallbackReadInitialSharedContent SharedData) = [] :=
  ⟨rfl, rfl, rfl⟩

/-- The observable state of a `ShareReceivedListener`: its `unsubs` array of
pending unsubscribe functions (represented by identifiers) and the trace of
unsubscribe invocations made so far. -/
structure ShareListenerState where
  unsubs : List Nat
  calls : List Nat
  deriving DecidableEq, Repr

/-- A freshly constructed listener: no unsubscribe functions yet. -/
def newShareReceivedListener : ShareListenerState :=
  { unsubs := [], calls := [] }

/-- `listen`: on the android platform, registers a handler and pushes its
unsubscribe function; elsewhere it does nothing. -/
def listen (isAndroid : Bool) (s : ShareListenerState) (unsub : Nat) : ShareListenerState :=
  if isAndroid then { s with unsubs := s.unsubs ++ [unsub] } else s

/-- `unlistenAll`: while `unsubs` is non-empty, pop its last element and
invoke it (recorded on the call trace). -/
def unlistenAll (s : ShareListenerState) : ShareListenerState :=
  if h : s.unsubs = [] then s
  else unlistenAll { unsubs := s.unsubs.dropLast, calls := s.calls ++ [s.unsubs.getLast h] }
termination_by s.unsubs.length
decreasing_by
  simp only [List.length_dropLast]
  exact Nat.sub_lt (List.length_pos.mpr h) Nat.one_pos

/-- `stop` just delegates to `unlistenAll`. -/
def ShareListenerState.stop (s : ShareListenerState) : ShareListenerState :=
  unlistenAll s

theorem unlistenAll_eq (us cs : List Nat) :
    unlistenAll ⟨us, cs⟩ = ⟨[], cs ++ us.reverse⟩ := by
  induction us using List.reverseRecOn generalizing cs with
  | nil => rw [unlistenAll]; simp
  | append_singleton ys y ih =>
    rw [unlistenAll]
    rw [dif_neg (by simp)]
    simp only [List.dropLast_concat, List.getLast_concat]
    rw [ih]
    simp

/-- C10: after `stop`, the `unsubs` array is empty and every unsubscribe
function pushed since construction or the previous `stop` has been invoked
exactly once (appended to the call trace, in pop order); an immediate second
`stop` is a no-op, so `stop` is idempotent. -/
theorem C10_stop_unsubscribes_once_and_idempotent (s : ShareListenerState) (u : Nat) :
    s.stop.unsubs = [] ∧
    s.stop.calls = s.calls ++ s.unsubs.reverse ∧
    s.stop.calls.count u = s.calls.count u + s.unsubs.count u ∧
    s.stop.stop = s.stop := by
  obtain ⟨us, cs⟩ := s
  rw [ShareListenerState.stop, unlistenAll_eq]
  refine ⟨rfl, rfl, ?_, ?_⟩
  · simp [List.count_append, List.count_reverse]
  · rw [ShareListenerState.stop, unlistenAll_eq]
    simp

end ZulipMobile
